import Mathlib

/-!
Verification development for the chat-proxy route (`src/app/api/chat/route.ts`)
and the API-configuration dialog (`src/components/api-config-dialog.tsx`) of
the next-ai-draw-io repository.

The TypeScript code is shallowly embedded: request bodies, message lists and
upstream responses become inductive data, JavaScript truthiness on optional
strings becomes explicit helper functions, exceptions become `Except`, and the
externally-provided functions (the `ai` package's `convertToModelMessages`,
`JSON.stringify` on structured content, and the SiliconFlow HTTP endpoint) are
parameters of the embedded handler.  A JavaScript peculiarity that matters
below: in the route, the `siliconflow` arm of the provider `switch` reads the
variable `enhancedMessages`, whose `let` declaration appears *after* the
switch in the same block, so the read happens inside the temporal dead zone
and throws a `ReferenceError`; the embedding models such a read explicitly.
-/

namespace Spec2Proof

/-- JavaScript `x || d` for a possibly-undefined string `x`: the default is
taken when `x` is `undefined` or the empty string (both falsy). -/
def jsOrS (x : Option String) (d : String) : String :=
  match x with
  | none => d
  | some s => if s = "" then d else s

/-- JavaScript `!x` for a possibly-undefined string field: true exactly when
the field is absent or the empty string. -/
def jsFalsyS : Option String → Bool
  | none => true
  | some s => s == ""

/-! ### UI messages (the request's `messages` array) -/

/-- One entry of a UI message's `parts` array: a text part, a file part
(with `url` and `mediaType`), or a part of any other type. -/
inductive UIPart where
  | text (text : String)
  | file (url : String) (mediaType : String)
  | other
deriving DecidableEq

/-- A UI message as sent by the chat client: a role and a parts array
(an absent `parts` field behaves exactly like an empty array in the route,
so it is modelled as `[]`). -/
structure UIMessage where
  role : String
  parts : List UIPart
deriving DecidableEq

/-- The text of a text part, `none` otherwise (used to model
`parts.find(p => p.type === 'text')?.text`). -/
def UIPart.textOf : UIPart → Option String
  | .text t => some t
  | _ => none

/-- The `(url, mediaType)` of a file part, `none` otherwise (used to model
`parts.filter(p => p.type === 'file')` together with the later accesses of
`filePart.url` and `filePart.mediaType`). -/
def UIPart.fileOf : UIPart → Option (String × String)
  | .file url mt => some (url, mt)
  | _ => none

/-! ### Model messages (output of the external `convertToModelMessages`) -/

/-- One entry of a structured model-message content array. -/
inductive ContentPart where
  | text (text : String)
  | image (image : String) (mimeType : String)
  | other
deriving DecidableEq

/-- Model-message content: either a plain string or a parts array. -/
inductive MessageContent where
  | str (s : String)
  | parts (ps : List ContentPart)
deriving DecidableEq

/-- A model message: role plus content. -/
structure ModelMessage where
  role : String
  content : MessageContent
deriving DecidableEq

/-! ### The fenced-block regex of the siliconflow branch

The route runs `content.match(/```xml\s*([\s\S]*?)\s*```/)` and keeps the
first capture group.  The embedding reproduces the backtracking semantics:
the match starts at the leftmost occurrence of the literal fence opener, the
first `\s*` is greedy (so the capture never starts with whitespace), the
group is lazy and the second `\s*` greedy (so the capture is the shortest
prefix from which a whitespace run reaches a closing triple backtick). -/

/-- JavaScript `\s` on the ASCII range (space, tab, newline, carriage return,
vertical tab, form feed). -/
def jsWs (c : Char) : Bool :=
  c = ' ' || c = '\t' || c = '\n' || c = '\r' || c = '\x0b' || c = '\x0c'

/-- The characters of the literal fence opener of the regex. -/
def fenceOpen : List Char := "```xml".toList

/-- The characters of a closing triple backtick. -/
def fenceTicks : List Char := "```".toList

/-- Whether the list starts with a triple backtick. -/
def startsTicks (l : List Char) : Bool := l.take 3 == fenceTicks

/-- Whether skipping a (possibly empty) whitespace run from the head of the
list reaches a triple backtick; this is where the lazy group may stop. -/
def skipWsHitsTicks : List Char → Bool
  | [] => false
  | c :: rest =>
      if startsTicks (c :: rest) then true
      else if jsWs c then skipWsHitsTicks rest
      else false

/-- The lazy capture group: the shortest prefix of the list after which a
whitespace run reaches a closing triple backtick: `none` when no closing
fence exists at all. -/
def captureUntil : List Char → Option (List Char)
  | [] => none
  | c :: rest =>
      if skipWsHitsTicks (c :: rest) then some []
      else (captureUntil rest).map (fun cs => c :: cs)

/-- The suffix following the first occurrence of the literal fence opener,
`none` when the string has no such occurrence. -/
def findAfterFenceOpen : List Char → Option (List Char)
  | [] => none
  | c :: rest =>
      if (c :: rest).take 6 == fenceOpen then some ((c :: rest).drop 6)
      else findAfterFenceOpen rest

/-- The first capture group of `content.match(/```xml\s*([\s\S]*?)\s*```/)`,
or `none` when the regex does not match. -/
def matchXmlFence (s : String) : Option String :=
  match findAfterFenceOpen s.toList with
  | none => none
  | some rest =>
      (captureUntil (rest.dropWhile jsWs)).map (fun cs => String.mk cs)

/-! ### Request body and API configuration -/

/-- The raw `apiConfig` object of the request body; each field may be absent
(and string fields may be empty, which JavaScript truthiness conflates with
absence wherever the route tests them). -/
structure RawApiConfig where
  provider : Option String
  apiKey : Option String
  model : Option String
deriving DecidableEq

/-- The parsed request body `{ messages, xml, apiConfig }`. -/
structure ChatRequest where
  messages : List UIMessage
  xml : Option String
  apiConfig : Option RawApiConfig
deriving DecidableEq

/-- The validation test of the route:
`!apiConfig || !apiConfig.apiKey || !apiConfig.provider`. -/
def configMissing (c : Option RawApiConfig) : Bool :=
  match c with
  | none => true
  | some cfg => jsFalsyS cfg.apiKey || jsFalsyS cfg.provider

/-! ### The SiliconFlow upstream call -/

/-- A flat `{ role, content }` message of the siliconflow request body. -/
structure FlatMessage where
  role : String
  content : String
deriving DecidableEq

/-- The JSON body of the siliconflow completions request. -/
structure SFRequestBody where
  model : String
  messages : List FlatMessage
  temperature : Nat
deriving DecidableEq

/-- A record of one outgoing vendor HTTP request made by the handler. -/
structure UpstreamCall where
  url : String
  method : String
  authorization : String
  body : SFRequestBody
deriving DecidableEq

/-- The `message` object of one choice of a completions response. -/
structure SFChoiceMessage where
  content : Option String
deriving DecidableEq

/-- One entry of the `choices` array of a completions response. -/
structure SFChoice where
  message : SFChoiceMessage
deriving DecidableEq

/-- The parts of a SiliconFlow HTTP response the route reads: `ok`,
`status`, `statusText`, the error body's `error?.message`, and the success
body's `choices`. -/
structure SFResponse where
  ok : Bool
  status : Nat
  statusText : String
  errorMessage : Option String
  choices : List SFChoice
deriving DecidableEq

/-! ### Tool declarations passed to `streamText` -/

/-- The fragment of zod schemas the route uses. -/
inductive ZodType where
  | string
  | object (fields : List (String × ZodType))
  | array (elem : ZodType)

/-- A tool declaration: name, description and input schema. -/
structure ToolDecl where
  name : String
  description : String
  inputSchema : ZodType

/-- The `display_diagram` tool declaration of the route. -/
def displayDiagramTool : ToolDecl :=
  { name := "display_diagram"
    description := "Display a diagram on draw.io. You only need to pass the nodes inside the <root> tag (including the <root> tag itself) in the XML string.\n          For example:\n          <root>\n            <mxCell id=\"0\"/>\n            <mxCell id=\"1\" parent=\"0\"/>\n            <mxGeometry x=\"20\" y=\"20\" width=\"100\" height=\"100\" as=\"geometry\"/>\n            <mxCell id=\"2\" value=\"Hello, World!\" style=\"shape=rectangle\" parent=\"1\">\n              <mxGeometry x=\"20\" y=\"20\" width=\"100\" height=\"100\" as=\"geometry\"/>\n            </mxCell>\n          </root>\n          - Note that when you need to generate diagram about aws architecture, use **AWS 2025 icons**.\n          "
    inputSchema := .object [("xml", .string)] }

/-- The `edit_diagram` tool declaration of the route. -/
def editDiagramTool : ToolDecl :=
  { name := "edit_diagram"
    description := "Edit specific parts of the current diagram by replacing exact line matches. Use this tool to make targeted fixes without regenerating the entire XML.\nIMPORTANT: Keep edits concise:\n- Only include the lines that are changing, plus 1-2 surrounding lines for context if needed\n- Break large changes into multiple smaller edits\n- Each search must contain complete lines (never truncate mid-line)\n- First match only - be specific enough to target the right element"
    inputSchema := .object
      [("edits", .array (.object [("search", .string), ("replace", .string)]))] }

/-- The fixed system prompt of the route (the template literal assigned to
`systemMessage`), transcribed verbatim. -/
def systemMessage : String :=
  "\nYou are an expert diagram creation assistant specializing in draw.io XML generation.\nYour primary function is crafting clear, well-organized visual diagrams through precise XML specifications.\nYou can see the image that user uploaded.\nNote that when you need to generate diagram about aws architecture, use **AWS 2025 icons**.\n\nYou utilize the following tools:\n---Tool1---\ntool name: display_diagram\ndescription: Display a NEW diagram on draw.io. Use this when creating a diagram from scratch or when major structural changes are needed.\nparameters: \x7b\n  xml: string\n\x7d\n---Tool2---\ntool name: edit_diagram\ndescription: Edit specific parts of the EXISTING diagram. Use this when making small targeted changes like adding/removing elements, changing labels, or adjusting properties. This is more efficient than regenerating the entire XML.\nparameters: \x7b\n  edits: Array<\x7bsearch: string, replace: string\x7d>\n\x7d\n---End of tools---\n\nIMPORTANT: Choose the right tool:\n- Use display_diagram for: Creating new diagrams, major restructuring, or when the current diagram XML is empty\n- Use edit_diagram for: Small modifications, adding/removing elements, changing text/colors, repositioning items\n\nCore capabilities:\n- Generate valid, well-formed XML strings for draw.io diagrams\n- Create professional flowcharts, mind maps, entity diagrams, and technical illustrations\n- Convert user descriptions into visually appealing diagrams using basic shapes and connectors\n- Apply proper spacing, alignment and visual hierarchy in diagram layouts\n- Adapt artistic concepts into abstract diagram representations using available shapes\n- Optimize element positioning to prevent overlapping and maintain readability\n- Structure complex systems into clear, organized visual components\n\nLayout constraints:\n- CRITICAL: Keep all diagram elements within a single page viewport to avoid page breaks\n- Position all elements with x coordinates between 0-800 and y coordinates between 0-600\n- Maximum width for containers (like AWS cloud boxes): 700 pixels\n- Maximum height for containers: 550 pixels\n- Use compact, efficient layouts that fit the entire diagram in one view\n- Start positioning from reasonable margins (e.g., x=40, y=40) and keep elements grouped closely\n- For large diagrams with many elements, use vertical stacking or grid layouts that stay within bounds\n- Avoid spreading elements too far apart horizontally - users should see the complete diagram without a page break line\n\nNote that:\n- Focus on producing clean, professional diagrams that effectively communicate the intended information through thoughtful layout and design choices.\n- When artistic drawings are requested, creatively compose them using standard diagram shapes and connectors while maintaining visual clarity.\n- Return XML only via tool calls, never in text responses.\n- If user asks you to replicate a diagram based on an image, remember to match the diagram style and layout as closely as possible. Especially, pay attention to the lines and shapes, for example, if the lines are straight or curved, and if the shapes are rounded or square.\n- Note that when you need to generate diagram about aws architecture, use **AWS 2025 icons**.\n\nWhen using edit_diagram tool:\n- Keep edits minimal - only include the specific line being changed plus 1-2 surrounding lines for context if needed\n- Example GOOD edit: \x7b\"search\": \"  <mxCell id=\"2\" value=\"Old Text\">\", \"replace\": \"  <mxCell id=\"2\" value=\"New Text\">\"\x7d\n- Example BAD edit: Including 10+ unchanged lines just to change one attribute\n- For multiple changes, use separate edits: [\x7b\"search\": \"line1\", \"replace\": \"new1\"\x7d, \x7b\"search\": \"line2\", \"replace\": \"new2\"\x7d]\n- CRITICAL: If edit_diagram fails because the search pattern cannot be found, fall back to using display_diagram to regenerate the entire diagram with your changes. Do NOT keep trying edit_diagram with different search patterns.\n"


/-! ### Responses and the embedded handler -/

/-- The model binding chosen by the provider switch: which vendor binding is
constructed, the resolved model id, and the API key passed to the binding
constructor (`none` on the `openai` arm, which uses the shared default
credential context instead of the request's key). -/
structure SelectedModel where
  providerKind : String
  modelId : String
  bindingApiKey : Option String
deriving DecidableEq

/-- The argument record of the `streamText` invocation. -/
structure StreamTextCall where
  system : String
  model : SelectedModel
  messages : List ModelMessage
  tools : List ToolDecl
  temperature : Nat

/-- The JSON object serialized into the first `data:` frame of the synthetic
SSE body produced by the siliconflow branch. -/
structure SSEPayload where
  type : String
  text : String
  tool : Option String
deriving DecidableEq

/-- A response of the handler: a JSON response whose body is an object with
a single `error` field, a synthetic two-frame SSE response (the first frame
carries the payload, the second is the literal `data: [DONE]`; the three
strings are the `Content-Type`, `Cache-Control` and `Connection` headers),
or the UI-message-stream response wrapping a `streamText` result. -/
inductive Response where
  | json (status : Nat) (error : String)
  | sse (payload : SSEPayload)
        (contentType cacheControl connection : String)
  | stream (call : StreamTextCall)

/-- A JavaScript exception as far as the route can observe it. -/
inductive JsError where
  | referenceError (name : String)
  | typeError (msg : String)
deriving DecidableEq

/-- Reading a `let`-declared variable inside its temporal dead zone (before
its declaration statement has executed) throws a `ReferenceError`. -/
def tdzRead (α : Type) (name : String) : Except JsError α :=
  .error (.referenceError name)

/-- The 400 message for a missing or incomplete `apiConfig`. -/
def missingConfigMsg : String := "API 配置缺失，请先配置 AI 提供商"

/-- The 400 message for an unrecognized provider. -/
def unsupportedProviderMsg : String := "不支持的 AI 提供商"

/-- The fixed body of the outermost catch-all 500 response. -/
def internalErrorMsg : String := "Internal server error"

/-- The template literal `formattedTextContent`: the current diagram XML and
the last message's text, each fenced, embedded verbatim. -/
def formattedTextContent (xml : Option String) (lastMessageText : String) : String :=
  "\nCurrent diagram XML:\n\"\"\"xml\n" ++ jsOrS xml "" ++
    "\n\"\"\"\nUser input:\n\"\"\"md\n" ++ lastMessageText ++ "\n\"\"\""

/-- The rewrite of the converted message list (route lines 202-227): when the
list is non-empty and its last message has role `user`, that message's
content is replaced by a parts array holding one text part (the formatted
text content) followed by one image entry per file part of the raw last
message; otherwise the list is returned unchanged. -/
def enhanceMessages (modelMessages : List ModelMessage)
    (formatted : String) (fileParts : List (String × String)) : List ModelMessage :=
  match modelMessages.getLast? with
  | none => modelMessages
  | some lastModelMessage =>
      if lastModelMessage.role = "user" then
        modelMessages.dropLast ++
          [{ lastModelMessage with
              content := .parts (ContentPart.text formatted ::
                fileParts.map (fun p => ContentPart.image p.1 p.2)) }]
      else modelMessages

/-- A JavaScript value as far as the stream error callback can observe it:
null or undefined, a string, an `Error` instance (carrying its message), or
any other value (carrying its `JSON.stringify` image). -/
inductive JsValue where
  | nullish
  | str (s : String)
  | errorObj (message : String)
  | other (json : String)
deriving DecidableEq

/-- The `errorHandler` callback of the route (lines 273-287). -/
def errorHandler (error : JsValue) : String :=
  match error with
  | .nullish => "unknown error"
  | .str s => s
  | .errorObj message => message
  | .other json => json

/-- The siliconflow arm of the switch from the point where `enhancedMessages`
has been read (route lines 57-115): flatten the messages (stringifying any
non-string content with the supplied `JSON.stringify` model), issue one POST
to the fixed completions endpoint, and reshape the result.  `sfFetch` is the
oracle for the vendor endpoint; the returned list records the upstream calls
made. -/
def siliconflowBranch (stringifyParts : List ContentPart → String)
    (sfFetch : UpstreamCall → SFResponse) (apiKey : String) (model : Option String)
    (enhancedMessages : List ModelMessage) :
    Except JsError Response × List UpstreamCall :=
  let siliconflowMessages : List FlatMessage :=
    enhancedMessages.map (fun msg =>
      { role := msg.role
        content := match msg.content with
                   | .str s => s
                   | .parts ps => stringifyParts ps })
  let call : UpstreamCall :=
    { url := "https://api.siliconflow.cn/v1/chat/completions"
      method := "POST"
      authorization := "Bearer " ++ apiKey
      body := { model := jsOrS model "Qwen/Qwen2.5-72B-Instruct"
                messages := siliconflowMessages
                temperature := 0 } }
  let resp := sfFetch call
  if !resp.ok then
    (.ok (.json resp.status
      ("SiliconFlow API错误: " ++ jsOrS resp.errorMessage resp.statusText)), [call])
  else
    let content := jsOrS ((resp.choices.head?).bind (fun c => c.message.content)) ""
    match matchXmlFence content with
    | some xml =>
        (.ok (.sse { type := "text", text := xml, tool := some "display_diagram" }
          "text/event-stream" "no-cache" "keep-alive"), [call])
    | none =>
        (.ok (.sse { type := "text", text := content, tool := none }
          "text/event-stream" "no-cache" "keep-alive"), [call])

/-- The shared path for the `openai`, `openrouter` and `google` arms (route
lines 123-291): extract text and file parts from the raw last message (this
read throws a `TypeError` when `messages` is empty, since
`messages[messages.length - 1]` is then `undefined`), convert and rewrite the
message list, and invoke `streamText`.  `convert` is the external
`convertToModelMessages`. -/
def sharedPath (convert : List UIMessage → List ModelMessage)
    (selectedModel : SelectedModel) (req : ChatRequest) :
    Except JsError Response × List UpstreamCall :=
  match req.messages.getLast? with
  | none =>
      (.error (.typeError "Cannot read properties of undefined (reading parts)"), [])
  | some lastMessage =>
      let lastMessageText := jsOrS (lastMessage.parts.findSome? UIPart.textOf) ""
      let fileParts := lastMessage.parts.filterMap UIPart.fileOf
      let formatted := formattedTextContent req.xml lastMessageText
      let modelMessages := convert req.messages
      let enhancedMessages := enhanceMessages modelMessages formatted fileParts
      (.ok (.stream
        { system := systemMessage
          model := selectedModel
          messages := enhancedMessages
          tools := [displayDiagramTool, editDiagramTool]
          temperature := 0 }), [])

/-- The body of the `try` block of the POST handler: validation, the provider
switch, and the selected path.  On the `siliconflow` arm the switch reads
`enhancedMessages`, whose `let` declaration (route line 202) sits after the
switch in the same block and has therefore not executed yet, so the read is a
temporal-dead-zone access and throws. -/
def postBody (convert : List UIMessage → List ModelMessage)
    (stringifyParts : List ContentPart → String)
    (sfFetch : UpstreamCall → SFResponse)
    (req : ChatRequest) : Except JsError Response × List UpstreamCall :=
  match req.apiConfig with
  | none => (.ok (.json 400 missingConfigMsg), [])
  | some cfg =>
      if jsFalsyS cfg.apiKey || jsFalsyS cfg.provider then
        (.ok (.json 400 missingConfigMsg), [])
      else
        let provider := cfg.provider.getD ""
        let apiKey := cfg.apiKey.getD ""
        let model := cfg.model
        match provider with
        | "openai" =>
            sharedPath convert
              { providerKind := "openai", modelId := jsOrS model "gpt-4"
                bindingApiKey := none } req
        | "openrouter" =>
            sharedPath convert
              { providerKind := "openrouter", modelId := jsOrS model "openai/gpt-4o"
                bindingApiKey := some apiKey } req
        | "google" =>
            sharedPath convert
              { providerKind := "google", modelId := jsOrS model "gemini-1.5-pro"
                bindingApiKey := some apiKey } req
        | "siliconflow" =>
            (match tdzRead (List ModelMessage) "enhancedMessages" with
             | .error e => (.error e, [])
             | .ok enhancedMessages =>
                 siliconflowBranch stringifyParts sfFetch apiKey model enhancedMessages)
        | _ => (.ok (.json 400 unsupportedProviderMsg), [])

/-- The POST handler: the try body with the outermost catch, which maps any
escaped exception to a 500 response with the fixed message. -/
def POST (convert : List UIMessage → List ModelMessage)
    (stringifyParts : List ContentPart → String)
    (sfFetch : UpstreamCall → SFResponse)
    (req : ChatRequest) : Response × List UpstreamCall :=
  match postBody convert stringifyParts sfFetch req with
  | (.ok r, calls) => (r, calls)
  | (.error _, calls) => (.json 500 internalErrorMsg, calls)

/-! ### The API-configuration dialog (`src/components/api-config-dialog.tsx`)

The persisted store is the single localStorage entry `"ai-draw-config"`.
`JSON.parse` composed with `JSON.stringify` is the identity on the flat
string-field config record (an absent `model` field serializes to an absent
key and parses back to an absent field), so the stored value is modelled as
the parsed record itself, with an extra constructor for unparsable data. -/

/-- One entry of the `providers` table of the dialog. -/
structure ProviderInfo where
  id : String
  name : String
  models : List String
  defaultModel : String
  placeholder : String
  apiUrl : String
  modelsUrl : String
  getModelsApi : Option String
deriving DecidableEq

/-- The `providers` table of the dialog, transcribed verbatim. -/
def providers : List ProviderInfo :=
  [{ id := "openai"
     name := "OpenAI"
     models := ["gpt-4", "gpt-4-turbo", "gpt-3.5-turbo"]
     defaultModel := "gpt-4"
     placeholder := "sk-..."
     apiUrl := "https://platform.openai.com/api-keys"
     modelsUrl := "https://platform.openai.com/docs/models"
     getModelsApi := none },
   { id := "openrouter"
     name := "OpenRouter"
     models := ["openai/gpt-4o", "openai/gpt-4-turbo",
                "anthropic/claude-3.5-sonnet", "moonshotai/kimi-k2:free"]
     defaultModel := "openai/gpt-4o"
     placeholder := "sk-or-..."
     apiUrl := "https://openrouter.ai/keys"
     modelsUrl := "https://openrouter.ai/models"
     getModelsApi := some "https://openrouter.ai/api/v1/models" },
   { id := "google"
     name := "Google Gemini"
     models := ["gemini-1.5-pro", "gemini-1.5-flash"]
     defaultModel := "gemini-1.5-pro"
     placeholder := "AIza..."
     apiUrl := "https://aistudio.google.com/app/apikey"
     modelsUrl := "https://ai.google.dev/gemini-api/docs/models/gemini"
     getModelsApi := none },
   { id := "siliconflow"
     name := "SiliconFlow (硅基流动)"
     models := ["Qwen/Qwen2.5-72B-Instruct", "Qwen/Qwen2.5-Coder-32B-Instruct",
                "deepseek-chat", "deepseek-coder"]
     defaultModel := "Qwen/Qwen2.5-72B-Instruct"
     placeholder := "sk-..."
     apiUrl := "https://cloud.siliconflow.cn/me/account/ak"
     modelsUrl := "https://docs.siliconflow.cn/cn/userguide/introduction"
     getModelsApi := some "https://api.siliconflow.cn/v1/models" }]

/-- The config record held in component state and persisted by the dialog. -/
structure StoredConfig where
  provider : String
  apiKey : String
  model : Option String
deriving DecidableEq

/-- The content of the persisted localStorage entry: either data that
`JSON.parse` rejects, or a parsed config record. -/
inductive StoredValue where
  | malformed
  | parsed (c : StoredConfig)
deriving DecidableEq

/-- The initial component state (`useState` at dialog lines 84-88); this is
what remains in effect when nothing valid was persisted. -/
def defaultConfig : StoredConfig :=
  { provider := "openai", apiKey := "", model := some "gpt-4" }

/-- The load effect of the dialog (lines 96-113): an absent entry leaves the
initial state; unparsable data is logged and leaves the initial state; parsed
data has its `model` field backfilled from the provider's declared default
when `!parsed.model` holds (the field is absent or the empty string) and the
provider id is found in the table. -/
def loadConfig (savedConfig : Option StoredValue) : StoredConfig :=
  match savedConfig with
  | none => defaultConfig
  | some .malformed => defaultConfig
  | some (.parsed parsed) =>
      if jsFalsyS parsed.model then
        match providers.find? (fun p => p.id = parsed.provider) with
        | some provider => { parsed with model := some provider.defaultModel }
        | none => parsed
      else parsed

/-- The save handler of the dialog (lines 166-172): the config is serialized
into the localStorage entry (serialization then parsing is the identity on
the record, so the stored value is the parsed record itself). -/
def saveConfig (config : StoredConfig) : Option StoredValue :=
  some (.parsed config)

/-! ### Theorems for the claims -/

/-- C1: for every request whose body lacks `apiConfig`, or whose
`apiConfig.apiKey` or `apiConfig.provider` is absent or empty, the POST
handler returns status 400 with an `error` body (the missing-config message),
and no upstream call is made. -/
theorem post_missing_config_400_no_upstream
    (convert : List UIMessage → List ModelMessage)
    (stringifyParts : List ContentPart → String)
    (sfFetch : UpstreamCall → SFResponse) (req : ChatRequest)
    (h : req.apiConfig = none ∨
      ∃ cfg, req.apiConfig = some cfg ∧
        (cfg.apiKey = none ∨ cfg.apiKey = some "" ∨
         cfg.provider = none ∨ cfg.provider = some "")) :
    POST convert stringifyParts sfFetch req =
      (Response.json 400 missingConfigMsg, []) := by
  rcases h with h | ⟨cfg, hc, hf⟩
  · simp [POST, postBody, h]
  · have hb : (jsFalsyS cfg.apiKey || jsFalsyS cfg.provider) = true := by
      rcases hf with h1 | h1 | h1 | h1 <;> simp [jsFalsyS, h1]
    simp [POST, postBody, hc, hb]

/-- C1 witness: the handler at a concrete request with an absent `apiConfig`. -/
theorem post_missing_config_400_no_upstream_witness :
    (({ messages := [], xml := none, apiConfig := none } : ChatRequest).apiConfig = none ∨
      ∃ cfg, ({ messages := [], xml := none, apiConfig := none } : ChatRequest).apiConfig
          = some cfg ∧
        (cfg.apiKey = none ∨ cfg.apiKey = some "" ∨
         cfg.provider = none ∨ cfg.provider = some "")) ∧
    POST (fun _ => []) (fun _ => "")
      (fun _ => { ok := true, status := 200, statusText := "OK",
                  errorMessage := none, choices := [] })
      { messages := [], xml := none, apiConfig := none } =
      (Response.json 400 missingConfigMsg, []) :=
  ⟨Or.inl rfl,
   post_missing_config_400_no_upstream _ _ _ _ (Or.inl rfl)⟩

/-- C2 counterexample: the empty provider string is none of the four supported
providers, and with a non-empty apiKey the handler does return 400, but with
the missing-config message rather than the unsupported-provider message, so
the claim's parenthetical about the message fails at this input. -/
theorem post_unsupported_provider_counterexample :
    (POST (fun _ => []) (fun _ => "")
        (fun _ => { ok := true, status := 200, statusText := "OK",
                    errorMessage := none, choices := [] })
        { messages := [], xml := none,
          apiConfig := some { provider := some "", apiKey := some "k", model := none } }).1 =
      Response.json 400 missingConfigMsg ∧
    missingConfigMsg ≠ unsupportedProviderMsg ∧
    ("" : String) ∉ (["openai", "openrouter", "google", "siliconflow"] : List String) :=
  ⟨rfl, by decide, by decide⟩

/-- C2 amended: for every request with a non-empty apiKey and a non-empty
provider that is none of openai, openrouter, google, siliconflow, the POST
handler returns status 400 with the unsupported-provider error message, and
no upstream call is made. -/
theorem post_unsupported_provider_400_no_upstream
    (convert : List UIMessage → List ModelMessage)
    (stringifyParts : List ContentPart → String)
    (sfFetch : UpstreamCall → SFResponse) (req : ChatRequest)
    (cfg : RawApiConfig) (k p : String)
    (hc : req.apiConfig = some cfg) (hk : cfg.apiKey = some k) (hkne : k ≠ "")
    (hp : cfg.provider = some p) (hpne : p ≠ "")
    (h1 : p ≠ "openai") (h2 : p ≠ "openrouter") (h3 : p ≠ "google")
    (h4 : p ≠ "siliconflow") :
    POST convert stringifyParts sfFetch req =
      (Response.json 400 unsupportedProviderMsg, []) := by
  simp [POST, postBody, hc, hk, hp, jsFalsyS, hkne, hpne, h1, h2, h3, h4]

/-- C2 witness: the handler at a concrete request naming the provider
`foo`. -/
theorem post_unsupported_provider_400_no_upstream_witness :
    (({ messages := [], xml := none,
        apiConfig := some { provider := some "foo", apiKey := some "k", model := none } } :
          ChatRequest).apiConfig =
      some { provider := some "foo", apiKey := some "k", model := none }) ∧
    ("k" : String) ≠ "" ∧ ("foo" : String) ≠ "" ∧
    ("foo" : String) ≠ "openai" ∧ ("foo" : String) ≠ "openrouter" ∧
    ("foo" : String) ≠ "google" ∧ ("foo" : String) ≠ "siliconflow" ∧
    POST (fun _ => []) (fun _ => "")
      (fun _ => { ok := true, status := 200, statusText := "OK",
                  errorMessage := none, choices := [] })
      { messages := [], xml := none,
        apiConfig := some { provider := some "foo", apiKey := some "k", model := none } } =
      (Response.json 400 unsupportedProviderMsg, []) :=
  ⟨rfl, by decide, by decide, by decide, by decide, by decide, by decide,
   post_unsupported_provider_400_no_upstream _ _ _ _ _ _ _
     rfl rfl (by decide) rfl (by decide) (by decide) (by decide) (by decide) (by decide)⟩

/-- C3: at a valid siliconflow request whose mocked completions endpoint
would return a 2xx completion carrying a fenced `xml` block, the handler does
not produce the claimed 200 two-frame SSE response: the siliconflow arm
throws on the temporal-dead-zone read of `enhancedMessages` first, so the
response is 500 with the fixed message and no upstream call is recorded. -/
theorem post_siliconflow_fenced_xml_evaluates_to_500 :
    POST (fun ms => ms.map (fun m => { role := m.role, content := .str "converted" }))
      (fun _ => "")
      (fun _ => { ok := true, status := 200, statusText := "OK", errorMessage := none,
                  choices := [{ message := { content := some "```xml\n<root/>\n```" } }] })
      { messages := [{ role := "user", parts := [.text "draw a diagram"] }]
        xml := some "<old/>"
        apiConfig := some { provider := some "siliconflow", apiKey := some "sk-test",
                            model := none } } =
      (Response.json 500 internalErrorMsg, []) := rfl

/-- C4: for every request with provider `siliconflow` and non-empty apiKey
and provider fields, the try body throws the `ReferenceError` of the
temporal-dead-zone read of `enhancedMessages` without recording any upstream
call, and the outer catch turns this into a 500 response with body
`error: Internal server error`. -/
theorem post_siliconflow_tdz_reference_error_500
    (convert : List UIMessage → List ModelMessage)
    (stringifyParts : List ContentPart → String)
    (sfFetch : UpstreamCall → SFResponse) (req : ChatRequest)
    (cfg : RawApiConfig) (k : String)
    (hc : req.apiConfig = some cfg) (hk : cfg.apiKey = some k) (hkne : k ≠ "")
    (hp : cfg.provider = some "siliconflow") :
    postBody convert stringifyParts sfFetch req =
      (.error (JsError.referenceError "enhancedMessages"), []) ∧
    POST convert stringifyParts sfFetch req =
      (Response.json 500 internalErrorMsg, []) := by
  have hbody : postBody convert stringifyParts sfFetch req =
      (.error (JsError.referenceError "enhancedMessages"), []) := by
    simp [postBody, hc, hk, hp, jsFalsyS, hkne, tdzRead]
  exact ⟨hbody, by simp [POST, hbody]⟩

/-- C4 witness: the handler at a concrete siliconflow request. -/
theorem post_siliconflow_tdz_reference_error_500_witness :
    (({ messages := [{ role := "user", parts := [.text "hi"] }], xml := none,
        apiConfig := some { provider := some "siliconflow", apiKey := some "sk",
                            model := none } } : ChatRequest).apiConfig =
      some { provider := some "siliconflow", apiKey := some "sk", model := none }) ∧
    ("sk" : String) ≠ "" ∧
    (postBody (fun _ => []) (fun _ => "")
        (fun _ => { ok := true, status := 200, statusText := "OK",
                    errorMessage := none, choices := [] })
        { messages := [{ role := "user", parts := [.text "hi"] }], xml := none,
          apiConfig := some { provider := some "siliconflow", apiKey := some "sk",
                              model := none } } =
        (.error (JsError.referenceError "enhancedMessages"), []) ∧
      POST (fun _ => []) (fun _ => "")
        (fun _ => { ok := true, status := 200, statusText := "OK",
                    errorMessage := none, choices := [] })
        { messages := [{ role := "user", parts := [.text "hi"] }], xml := none,
          apiConfig := some { provider := some "siliconflow", apiKey := some "sk",
                              model := none } } =
        (Response.json 500 internalErrorMsg, [])) :=
  ⟨rfl, by decide,
   post_siliconflow_tdz_reference_error_500 _ _ _ _ _ _ rfl rfl (by decide) rfl⟩

/-- C5: at a siliconflow request whose mocked completions endpoint would
return a non-2xx status with error body message `bad key`, the handler does
not propagate the upstream status or message: the branch throws on the
temporal-dead-zone read before the fetch, so the response is 500 with the
fixed message and the upstream is never called. -/
theorem post_siliconflow_upstream_error_evaluates_to_500 :
    POST (fun ms => ms.map (fun m => { role := m.role, content := .str "converted" }))
      (fun _ => "")
      (fun _ => { ok := false, status := 401, statusText := "Unauthorized",
                  errorMessage := some "bad key", choices := [] })
      { messages := [{ role := "user", parts := [.text "hello"] }]
        xml := none
        apiConfig := some { provider := some "siliconflow", apiKey := some "bad-key",
                            model := none } } =
      (Response.json 500 internalErrorMsg, []) := rfl

/-- C6: at a valid siliconflow request the handler issues no upstream call at
all (the recorded call list is empty), contrary to the claimed single POST to
the fixed completions endpoint: the temporal-dead-zone read throws first. -/
theorem post_siliconflow_no_upstream_call_recorded :
    (POST (fun ms => ms.map (fun m => { role := m.role, content := .str "converted" }))
        (fun _ => "")
        (fun _ => { ok := true, status := 200, statusText := "OK", errorMessage := none,
                    choices := [{ message := { content := some "plain answer" } }] })
        { messages := [{ role := "user", parts := [.text "make a flowchart"] }]
          xml := some "<root/>"
          apiConfig := some { provider := some "siliconflow", apiKey := some "sk-live",
                              model := some "Qwen/Qwen2.5-72B-Instruct" } }).2 = [] ∧
    (POST (fun ms => ms.map (fun m => { role := m.role, content := .str "converted" }))
        (fun _ => "")
        (fun _ => { ok := true, status := 200, statusText := "OK", errorMessage := none,
                    choices := [{ message := { content := some "plain answer" } }] })
        { messages := [{ role := "user", parts := [.text "make a flowchart"] }]
          xml := some "<root/>"
          apiConfig := some { provider := some "siliconflow", apiKey := some "sk-live",
                              model := some "Qwen/Qwen2.5-72B-Instruct" } }).1 =
      Response.json 500 internalErrorMsg :=
  ⟨rfl, rfl⟩

/-- C7: for every non-empty converted message list whose last turn is a user
turn, the augmentation replaces only the last turn's content, with a parts
array holding one synthetic text part (the diagram XML and the user's text,
each fenced, verbatim) followed by one image entry per file part of the
original last message; all earlier turns pass through unmodified. -/
theorem enhanceMessages_rewrites_last_user_turn
    (ms : List ModelMessage) (last : ModelMessage)
    (xml : Option String) (lastText : String) (fps : List (String × String))
    (hl : ms.getLast? = some last) (hrole : last.role = "user") :
    enhanceMessages ms (formattedTextContent xml lastText) fps =
      ms.dropLast ++
        [{ role := last.role
           content := .parts (ContentPart.text (formattedTextContent xml lastText) ::
             fps.map (fun p => ContentPart.image p.1 p.2)) }] ∧
    formattedTextContent xml lastText =
      "\nCurrent diagram XML:\n\"\"\"xml\n" ++ jsOrS xml "" ++
        "\n\"\"\"\nUser input:\n\"\"\"md\n" ++ lastText ++ "\n\"\"\"" := by
  refine ⟨?_, rfl⟩
  simp [enhanceMessages, hl, hrole]

/-- C7 witness: the augmentation at a concrete two-turn conversation whose
last turn is a user turn with one file part. -/
theorem enhanceMessages_rewrites_last_user_turn_witness :
    (([{ role := "assistant", content := .str "earlier" },
       { role := "user", content := .str "latest" }] : List ModelMessage).getLast? =
      some { role := "user", content := .str "latest" }) ∧
    ({ role := "user", content := .str "latest" } : ModelMessage).role = "user" ∧
    enhanceMessages
        [{ role := "assistant", content := .str "earlier" },
         { role := "user", content := .str "latest" }]
        (formattedTextContent (some "<root/>") "add a box")
        [("data:image/png;base64,AAAA", "image/png")] =
      [{ role := "assistant", content := .str "earlier" },
       { role := "user"
         content := .parts
           [ContentPart.text (formattedTextContent (some "<root/>") "add a box"),
            ContentPart.image "data:image/png;base64,AAAA" "image/png"] }] ∧
    formattedTextContent (some "<root/>") "add a box" =
      "\nCurrent diagram XML:\n\"\"\"xml\n<root/>\n\"\"\"\nUser input:\n\"\"\"md\nadd a box\n\"\"\"" :=
  ⟨by decide, by decide,
   (enhanceMessages_rewrites_last_user_turn
      [{ role := "assistant", content := .str "earlier" },
       { role := "user", content := .str "latest" }]
      { role := "user", content := .str "latest" }
      (some "<root/>") "add a box" [("data:image/png;base64,AAAA", "image/png")]
      (by decide) (by decide)).1,
   rfl⟩

/-- C8: for every valid request naming the provider `openai`, `openrouter`
or `google` whose message list is non-empty, the handler invokes `streamText`
with temperature 0, the fixed system prompt, the rewritten message list and
exactly the two tool declarations, on a binding whose model id is the
configured model or the provider's default (`gpt-4`, `openai/gpt-4o`,
`gemini-1.5-pro` respectively) when `apiConfig.model` is absent. -/
theorem post_shared_provider_stream_call
    (convert : List UIMessage → List ModelMessage)
    (stringifyParts : List ContentPart → String)
    (sfFetch : UpstreamCall → SFResponse) (req : ChatRequest)
    (cfg : RawApiConfig) (k p : String) (lastMsg : UIMessage)
    (hc : req.apiConfig = some cfg) (hk : cfg.apiKey = some k) (hkne : k ≠ "")
    (hp : cfg.provider = some p)
    (hprov : p = "openai" ∨ p = "openrouter" ∨ p = "google")
    (hlast : req.messages.getLast? = some lastMsg) :
    POST convert stringifyParts sfFetch req =
      (Response.stream
        { system := systemMessage
          model :=
            { providerKind := p
              modelId := jsOrS cfg.model
                (if p = "openai" then "gpt-4"
                 else if p = "openrouter" then "openai/gpt-4o"
                 else "gemini-1.5-pro")
              bindingApiKey := if p = "openai" then none else some k }
          messages :=
            enhanceMessages (convert req.messages)
              (formattedTextContent req.xml
                (jsOrS (lastMsg.parts.findSome? UIPart.textOf) ""))
              (lastMsg.parts.filterMap UIPart.fileOf)
          tools := [displayDiagramTool, editDiagramTool]
          temperature := 0 }, []) ∧
    (cfg.model = none →
      jsOrS cfg.model
        (if p = "openai" then "gpt-4"
         else if p = "openrouter" then "openai/gpt-4o"
         else "gemini-1.5-pro") =
      (if p = "openai" then "gpt-4"
       else if p = "openrouter" then "openai/gpt-4o"
       else "gemini-1.5-pro")) := by
  refine ⟨?_, fun hm => by simp [hm, jsOrS]⟩
  rcases hprov with h | h | h <;> subst h <;>
    simp [POST, postBody, sharedPath, hc, hk, hp, jsFalsyS, hkne, hlast]

/-- C8 witness: the handler at a concrete openai request with an absent
model field and a last user message holding a text part and a file part. -/
theorem post_shared_provider_stream_call_witness :
    (({ messages := [{ role := "user", parts := [.text "draw", .file "u" "image/png"] }]
        xml := some "<root/>"
        apiConfig := some { provider := some "openai", apiKey := some "sk-w",
                            model := none } } : ChatRequest).apiConfig =
      some { provider := some "openai", apiKey := some "sk-w", model := none }) ∧
    ("sk-w" : String) ≠ "" ∧
    (("openai" : String) = "openai" ∨ ("openai" : String) = "openrouter" ∨
      ("openai" : String) = "google") ∧
    (([{ role := "user", parts := [.text "draw", .file "u" "image/png"] }] :
        List UIMessage).getLast? =
      some { role := "user", parts := [.text "draw", .file "u" "image/png"] }) ∧
    (POST (fun ms => ms.map (fun m => { role := m.role, content := .str "converted" }))
        (fun _ => "")
        (fun _ => { ok := true, status := 200, statusText := "OK",
                    errorMessage := none, choices := [] })
        { messages := [{ role := "user", parts := [.text "draw", .file "u" "image/png"] }]
          xml := some "<root/>"
          apiConfig := some { provider := some "openai", apiKey := some "sk-w",
                              model := none } } =
      (Response.stream
        { system := systemMessage
          model := { providerKind := "openai"
                     modelId := jsOrS none
                       (if ("openai" : String) = "openai" then "gpt-4"
                        else if ("openai" : String) = "openrouter" then "openai/gpt-4o"
                        else "gemini-1.5-pro")
                     bindingApiKey :=
                       if ("openai" : String) = "openai" then none else some "sk-w" }
          messages :=
            enhanceMessages
              ((fun (ms : List UIMessage) =>
                  ms.map (fun m => ({ role := m.role, content := .str "converted" } :
                    ModelMessage)))
                [{ role := "user", parts := [.text "draw", .file "u" "image/png"] }])
              (formattedTextContent (some "<root/>")
                (jsOrS (([UIPart.text "draw", UIPart.file "u" "image/png"] :
                    List UIPart).findSome? UIPart.textOf) ""))
              (([UIPart.text "draw", UIPart.file "u" "image/png"] :
                  List UIPart).filterMap UIPart.fileOf)
          tools := [displayDiagramTool, editDiagramTool]
          temperature := 0 }, []) ∧
      ((none : Option String) = none →
        jsOrS none
          (if ("openai" : String) = "openai" then "gpt-4"
           else if ("openai" : String) = "openrouter" then "openai/gpt-4o"
           else "gemini-1.5-pro") =
        (if ("openai" : String) = "openai" then "gpt-4"
         else if ("openai" : String) = "openrouter" then "openai/gpt-4o"
         else "gemini-1.5-pro"))) :=
  ⟨rfl, by decide, Or.inl rfl, rfl,
   post_shared_provider_stream_call
     (fun ms => ms.map (fun m => { role := m.role, content := .str "converted" }))
     (fun _ => "")
     (fun _ => { ok := true, status := 200, statusText := "OK",
                 errorMessage := none, choices := [] })
     { messages := [{ role := "user", parts := [.text "draw", .file "u" "image/png"] }]
       xml := some "<root/>"
       apiConfig := some { provider := some "openai", apiKey := some "sk-w",
                           model := none } }
     { provider := some "openai", apiKey := some "sk-w", model := none }
     "sk-w" "openai"
     { role := "user", parts := [.text "draw", .file "u" "image/png"] }
     rfl rfl (by decide) rfl (Or.inl rfl) rfl⟩

/-- C9: every exception escaping the try body yields the fixed 500 response,
and the streaming error callback maps null or undefined to the fixed unknown
message, a string to itself, an Error to its message, and any other value to
its JSON stringification. -/
theorem post_unhandled_error_500_and_error_callback
    (convert : List UIMessage → List ModelMessage)
    (stringifyParts : List ContentPart → String)
    (sfFetch : UpstreamCall → SFResponse) (req : ChatRequest)
    (e : JsError) (calls : List UpstreamCall)
    (h : postBody convert stringifyParts sfFetch req = (.error e, calls)) :
    POST convert stringifyParts sfFetch req =
      (Response.json 500 internalErrorMsg, calls) ∧
    errorHandler .nullish = "unknown error" ∧
    (∀ s, errorHandler (.str s) = s) ∧
    (∀ m, errorHandler (.errorObj m) = m) ∧
    (∀ j, errorHandler (.other j) = j) := by
  refine ⟨?_, rfl, fun _ => rfl, fun _ => rfl, fun _ => rfl⟩
  simp [POST, h]

/-- C9 witness: the catch-all at a concrete request whose try body throws
(the siliconflow temporal-dead-zone read). -/
theorem post_unhandled_error_500_and_error_callback_witness :
    (postBody (fun _ => []) (fun _ => "")
        (fun _ => { ok := true, status := 200, statusText := "OK",
                    errorMessage := none, choices := [] })
        { messages := [], xml := none,
          apiConfig := some { provider := some "siliconflow", apiKey := some "x",
                              model := none } } =
      (.error (JsError.referenceError "enhancedMessages"), [])) ∧
    (POST (fun _ => []) (fun _ => "")
        (fun _ => { ok := true, status := 200, statusText := "OK",
                    errorMessage := none, choices := [] })
        { messages := [], xml := none,
          apiConfig := some { provider := some "siliconflow", apiKey := some "x",
                              model := none } } =
        (Response.json 500 internalErrorMsg, []) ∧
      errorHandler .nullish = "unknown error" ∧
      (∀ s, errorHandler (.str s) = s) ∧
      (∀ m, errorHandler (.errorObj m) = m) ∧
      (∀ j, errorHandler (.other j) = j)) :=
  ⟨rfl,
   post_unhandled_error_500_and_error_callback _ _ _ _
     (JsError.referenceError "enhancedMessages") [] rfl⟩

/-- C10 counterexample: a config whose `model` field is present but empty is
changed by the save-load round trip (the load effect tests `!parsed.model`,
which is true for the empty string as well as for an absent field), so the
loaded config is not equal to the saved one even though `model` was not
absent. -/
theorem config_roundtrip_counterexample :
    loadConfig (saveConfig { provider := "openai", apiKey := "k", model := some "" }) ≠
      { provider := "openai", apiKey := "k", model := some "" } ∧
    ({ provider := "openai", apiKey := "k", model := some "" } : StoredConfig).model ≠
      none ∧
    loadConfig (saveConfig { provider := "openai", apiKey := "k", model := some "" }) =
      { provider := "openai", apiKey := "k", model := some "gpt-4" } := by
  refine ⟨by decide, by decide, by decide⟩

/-- C10 amended: saving then loading yields the saved config, except that the
`model` field is backfilled from the provider's declared default when it was
absent or empty and the provider id is in the providers table; load never
throws (it is a total function), and an absent or malformed persisted entry
leaves the default config (provider openai, empty key, model gpt-4). -/
theorem config_save_load_roundtrip (cfg : StoredConfig) :
    (jsFalsyS cfg.model = false → loadConfig (saveConfig cfg) = cfg) ∧
    (jsFalsyS cfg.model = true →
      ∀ p, providers.find? (fun q => q.id = cfg.provider) = some p →
        loadConfig (saveConfig cfg) = { cfg with model := some p.defaultModel }) ∧
    (jsFalsyS cfg.model = true →
      providers.find? (fun q => q.id = cfg.provider) = none →
      loadConfig (saveConfig cfg) = cfg) ∧
    loadConfig none = defaultConfig ∧
    loadConfig (some .malformed) = defaultConfig ∧
    defaultConfig = { provider := "openai", apiKey := "", model := some "gpt-4" } := by
  refine ⟨fun hm => ?_, fun hm p hp => ?_, fun hm hp => ?_, rfl, rfl, rfl⟩
  · simp [loadConfig, saveConfig, hm]
  · simp [loadConfig, saveConfig, hm, hp]
  · simp [loadConfig, saveConfig, hm, hp]

/-- C10 witness: the round trip at a concrete google config with an absent
model field, backfilled from the google entry of the providers table. -/
theorem config_save_load_roundtrip_witness :
    (jsFalsyS ({ provider := "google", apiKey := "ak", model := none } :
        StoredConfig).model = true) ∧
    (providers.find?
        (fun q => q.id = ({ provider := "google", apiKey := "ak", model := none } :
          StoredConfig).provider) =
      some { id := "google"
             name := "Google Gemini"
             models := ["gemini-1.5-pro", "gemini-1.5-flash"]
             defaultModel := "gemini-1.5-pro"
             placeholder := "AIza..."
             apiUrl := "https://aistudio.google.com/app/apikey"
             modelsUrl := "https://ai.google.dev/gemini-api/docs/models/gemini"
             getModelsApi := none }) ∧
    loadConfig (saveConfig { provider := "google", apiKey := "ak", model := none }) =
      { provider := "google", apiKey := "ak", model := some "gemini-1.5-pro" } :=
  ⟨by decide, by decide,
   (config_save_load_roundtrip { provider := "google", apiKey := "ak", model := none }).2.1
     (by decide)
     { id := "google"
       name := "Google Gemini"
       models := ["gemini-1.5-pro", "gemini-1.5-flash"]
       defaultModel := "gemini-1.5-pro"
       placeholder := "AIza..."
       apiUrl := "https://aistudio.google.com/app/apikey"
       modelsUrl := "https://ai.google.dev/gemini-api/docs/models/gemini"
       getModelsApi := none }
     (by decide)⟩

end Spec2Proof
